import Mathlib

/-!
Shallow embedding of the TetFund-Report-App core (src/app.py) and proofs of
the claims about it.

Modelling conventions:
* Python floats for currency/percentage values are modelled as `ℚ` (the
  claims are about exact algebraic relations; exact equality over `ℚ`
  implies equality "within floating tolerance").
* A project cell that may hold a non-numeric or missing value (the
  `disbursed` and `completion` columns fed through
  `pd.to_numeric(..., errors="coerce").fillna(0)` in `recalc_projects`)
  is modelled as `Option ℚ`, `none` standing for an invalid/missing entry.
* The synthetic bank-charges row appended before PDF generation has no
  `"s_no"` key in the source dict, so `s_no` is `Option ℤ` (`none` = key
  absent).
* Code that raises a Python exception is modelled as returning
  `Option`/`Except`: the summary block of `main` (which evaluates
  `p["completion"] >= 100` and `p["disbursed"] / 100`, raising on
  non-numeric entries) returns `Option Summary`; `load_autosave` (which
  raises `KeyError` on a missing required key) returns `Except String AppState`
  whose error value names the missing key.
-/

/-- DEFAULT_BANK_CHARGES_AMOUNT from src/app.py line 26: `215_013.00`. -/
def DEFAULT_BANK_CHARGES_AMOUNT : ℚ := 215013

/-- One project record, mirroring the dict shape of DEFAULT_PROJECT
(src/app.py lines 33-46).  `disbursed` and `completion` are `Option ℚ`
(`none` = non-numeric/missing cell); `s_no` is `Option ℤ` (`none` = key
absent, as in the synthetic bank-charges row). -/
structure Project where
  s_no : Option ℤ
  project : String
  approved_cost : ℚ
  contract_sum : ℚ
  disbursed : Option ℚ
  balance : ℚ
  quality : String
  compliance : String
  other_obs : String
  completion : Option ℚ
  docs : String
  recommendation : String
deriving DecidableEq, Repr

/-- DEFAULT_PROJECT from src/app.py lines 33-46. -/
def DEFAULT_PROJECT : Project :=
  { s_no := some 1
    project := "New Project"
    approved_cost := 0
    contract_sum := 0
    disbursed := some 0
    balance := 100
    quality := "Good"
    compliance := "Compliant"
    other_obs := ""
    completion := some 0
    docs := "Pending"
    recommendation := "Pending Review" }

/-- A monitoring-team member (src/app.py lines 48-52). -/
structure TeamMember where
  name : String
  designation : String
deriving DecidableEq, Repr

/-- DEFAULT_MONITORING_TEAM from src/app.py lines 48-52. -/
def DEFAULT_MONITORING_TEAM : List TeamMember :=
  [ { name := "Arch. A.A.", designation := "Team Lead" }
  , { name := "Engr. A.B.", designation := "Monitor" }
  , { name := "Mr. A.C.", designation := "Engineer" } ]

/-- Models `pd.to_numeric(col, errors="coerce").fillna(0)` applied to one
cell (src/app.py lines 242-243): a valid numeric value passes through and
an invalid/missing value becomes 0. -/
def coerceNum (v : Option ℚ) : ℚ := v.getD 0

/-- The per-row effect of `recalc_projects` (src/app.py lines 241-246) at
1-based position `i`: coerce `disbursed` and `completion` to numeric,
set `balance = 100 - disbursed`, assign the sequence number. -/
def recalcOne (i : ℤ) (p : Project) : Project :=
  { p with
    disbursed := some (coerceNum p.disbursed)
    completion := some (coerceNum p.completion)
    balance := 100 - coerceNum p.disbursed
    s_no := some i }

/-- Row-wise recursion implementing `df["s_no"] = range(1, len(df)+1)`
together with the column recomputations of `recalc_projects`, starting at
sequence number `i`. -/
def recalcFrom (i : ℤ) : List Project → List Project
  | [] => []
  | p :: ps => recalcOne i p :: recalcFrom (i + 1) ps

/-- recalc_projects (src/app.py lines 241-246). -/
def recalc_projects (ps : List Project) : List Project := recalcFrom 1 ps

/-- The "Add Project" action (src/app.py lines 584-588): append a copy of
DEFAULT_PROJECT with `s_no = len(projects) + 1`. -/
def addProject (ps : List Project) : List Project :=
  ps ++ [{ DEFAULT_PROJECT with s_no := some ((ps.length : ℤ) + 1) }]

/-- The "Remove Last Project" action (src/app.py lines 590-593): pop the
last element when the list is non-empty, no-op on an empty list. -/
def removeLastProject (ps : List Project) : List Project := ps.dropLast

/-- The summary record built in `main` (src/app.py lines 676-685). -/
structure Summary where
  total_projects : ℕ
  completed : ℕ
  in_progress : ℤ
  completion_rate : ℚ
  total_approved : ℚ
  total_contract : ℚ
  total_disbursed : ℚ
  balance : ℚ
deriving DecidableEq, Repr

/-- True when every project has numeric `completion` and `disbursed`
entries.  The summary block of `main` (src/app.py lines 651 and 657)
evaluates `p["completion"] >= 100` and `p["disbursed"] / 100` directly,
which raises a TypeError on a non-numeric entry; this predicate guards the
modelled computation. -/
def allNumeric (ps : List Project) : Bool :=
  ps.all (fun p => p.completion.isSome && p.disbursed.isSome)

/-- `completed = sum(1 for p in projects if p["completion"] >= 100)`
(src/app.py line 651). -/
def countCompleted (ps : List Project) : ℕ :=
  ps.countP (fun p => decide (100 ≤ p.completion.getD 0))

/-- `total_approved = sum(p["approved_cost"] for p in projects)`
(src/app.py line 655). -/
def sumApproved (ps : List Project) : ℚ :=
  (ps.map (fun p => p.approved_cost)).sum

/-- `total_contract = sum(p["contract_sum"] for p in projects)`
(src/app.py line 656). -/
def sumContract (ps : List Project) : ℚ :=
  (ps.map (fun p => p.contract_sum)).sum

/-- `total_disbursed = sum((p["disbursed"] / 100) * p["contract_sum"] for p in projects)`
(src/app.py line 657). -/
def sumDisbursed (ps : List Project) : ℚ :=
  (ps.map (fun p => (p.disbursed.getD 0 / 100) * p.contract_sum)).sum

/-- The summary statistics block of `main` (src/app.py lines 649-664 and
676-685), including the conditional bank-charges rider addition.  Returns
`none` when a `completion`/`disbursed` entry is non-numeric (the Python
code raises there). -/
def computeSummary (projects : List Project) (bank_charges_added : Bool)
    (bank_charges_amount : ℚ) : Option Summary :=
  if allNumeric projects then
    let total_projects := projects.length
    let completed := countCompleted projects
    let in_progress : ℤ := (total_projects : ℤ) - (completed : ℤ)
    let completion_rate : ℚ :=
      if total_projects ≠ 0 then (completed : ℚ) / (total_projects : ℚ) * 100 else 0
    let total_approved := sumApproved projects
    let total_contract := sumContract projects
    let total_disbursed := sumDisbursed projects
    let total_approved :=
      if bank_charges_added then total_approved + bank_charges_amount else total_approved
    let total_contract :=
      if bank_charges_added then total_contract + bank_charges_amount else total_contract
    let total_disbursed :=
      if bank_charges_added then total_disbursed + bank_charges_amount else total_disbursed
    some { total_projects := total_projects
           completed := completed
           in_progress := in_progress
           completion_rate := completion_rate
           total_approved := total_approved
           total_contract := total_contract
           total_disbursed := total_disbursed
           balance := total_contract - total_disbursed }
  else none

/-- The synthetic "Bank and Administrative Charges" row appended before
PDF generation (src/app.py lines 742-754).  The source dict carries no
`"s_no"` key, hence `s_no := none`. -/
def bankChargesProject (amt : ℚ) : Project :=
  { s_no := none
    project := "Bank and Administrative Charges"
    approved_cost := amt
    contract_sum := amt
    disbursed := some 100
    balance := 0
    quality := "N/A"
    compliance := "N/A"
    other_obs := "Administrative charges"
    completion := some 100
    docs := "Submitted"
    recommendation := "Processed" }

/-- `pdf_projects` as built at the PDF call boundary (src/app.py lines
737-754): a copy of the stored list, with the synthetic bank-charges row
appended exactly when the rider is enabled. -/
def pdf_projects (ps : List Project) (bank_charges_added : Bool) (amt : ℚ) :
    List Project :=
  if bank_charges_added then ps ++ [bankChargesProject amt] else ps

/-- Round a rational to the nearest integer, ties to even, modelling how
Python's fixed-point `format` rounds float values (round-half-even),
applied to `q * s`.  Computed on the numerator/denominator:
`q * s = (q.num * s) / q.den`, `f` is its floor, and the remainder
`r = q * s - f` satisfies `r < 1/2` iff `2 * (q.num * s - f * q.den) < q.den`. -/
def roundHalfEvenScaled (q : ℚ) (s : ℤ) : ℤ :=
  let d : ℤ := (q.den : ℤ)
  let n : ℤ := q.num * s
  let f : ℤ := n.fdiv d
  let r2 : ℤ := 2 * (n - f * d)
  if r2 < d then f
  else if d < r2 then f + 1
  else if f % 2 = 0 then f else f + 1

/-- Round a rational to the nearest integer, ties to even. -/
def roundHalfEven (q : ℚ) : ℤ := roundHalfEvenScaled q 1

/-- Insert a comma after every three digits; the input and output digit
lists are least-significant-first. -/
def group3 : List Char → List Char
  | [] => []
  | [a] => [a]
  | [a, b] => [a, b]
  | [a, b, c] => [a, b, c]
  | a :: b :: c :: d :: rest => a :: b :: c :: ',' :: group3 (d :: rest)

/-- Decimal digits of a natural number with thousands separators. -/
def commaStr (m : ℕ) : String :=
  String.mk ((group3 (Nat.toDigits 10 m).reverse).reverse)

/-- Python `f"{x:,.0f}"`: thousands separators, zero decimal places. -/
def fmtComma0 (q : ℚ) : String :=
  let n := roundHalfEven q
  (if n < 0 then "-" else "") ++ commaStr n.natAbs

/-- Python `f"{x:,.2f}"`: thousands separators, two decimal places. -/
def fmtComma2 (q : ℚ) : String :=
  let n := roundHalfEvenScaled q 100
  let m := n.natAbs
  (if n < 0 then "-" else "") ++ commaStr (m / 100) ++ "." ++
    (if m % 100 < 10 then "0" else "") ++ toString (m % 100)

/-- Python `f"{x:.1f}"`: one decimal place, no thousands separators. -/
def fmt1 (q : ℚ) : String :=
  let n := roundHalfEvenScaled q 10
  let m := n.natAbs
  (if n < 0 then "-" else "") ++ toString (m / 10) ++ "." ++ toString (m % 10)

/-- Concatenation of a list of string pieces; an f-string template is
embedded as `strConcat` of its alternating literal and interpolated
pieces. -/
def strConcat : List String → String
  | [] => ""
  | s :: rest => s ++ strConcat rest

/-- `sub` occurs contiguously inside `s`. -/
def occursIn (sub s : String) : Prop :=
  ∃ l r, s.data = l ++ sub.data ++ r

theorem str_data_append (s t : String) : (s ++ t).data = s.data ++ t.data := rfl

theorem occursIn_refl (s : String) : occursIn s s := ⟨[], [], by simp⟩

theorem occursIn_append_right (sub t s : String) (h : occursIn sub s) :
    occursIn sub (t ++ s) := by
  obtain ⟨l, r, hl⟩ := h
  exact ⟨t.data ++ l, r, by simp [str_data_append, hl]⟩

theorem occursIn_append_left (sub s t : String) (h : occursIn sub s) :
    occursIn sub (s ++ t) := by
  obtain ⟨l, r, hl⟩ := h
  exact ⟨l, r ++ t.data, by simp [str_data_append, hl]⟩

theorem occursIn_trans (a b c : String) (hab : occursIn a b) (hbc : occursIn b c) :
    occursIn a c := by
  obtain ⟨l1, r1, h1⟩ := hab
  obtain ⟨l2, r2, h2⟩ := hbc
  exact ⟨l2 ++ l1, r1 ++ r2, by simp [h2, h1]⟩

theorem occursIn_strConcat_mem (s : String) (l : List String) (h : s ∈ l) :
    occursIn s (strConcat l) := by
  induction l with
  | nil => cases h
  | cons a tl ih =>
    rcases List.mem_cons.mp h with rfl | h'
    · exact occursIn_append_left _ _ _ (occursIn_refl _)
    · exact occursIn_append_right _ _ _ (ih h')

theorem occursIn_strConcat_adj (a b : String) (l1 l2 : List String) :
    occursIn (a ++ b) (strConcat (l1 ++ a :: b :: l2)) := by
  induction l1 with
  | nil =>
    exact ⟨[], (strConcat l2).data, by simp [strConcat, str_data_append]⟩
  | cons c tl ih =>
    exact occursIn_append_right _ _ _ ih

/-- The institution_info dict built in `main` (src/app.py lines 669-674). -/
structure InstitutionInfo where
  name : String
  location : String
  year : String
  date : String
deriving DecidableEq, Repr

/-- The approval_info dict built in `main` (src/app.py lines 730-735);
`comments` already carries the `or "No comments provided"` substitution
applied at that call site. -/
structure ApprovalInfo where
  status : String
  officer : String
  date : String
  comments : String
deriving DecidableEq, Repr

/-- One `<tr>` of the project table of `create_html_report`
(src/app.py lines 283-305), for the row at 1-based position `i` of the
rendered list.  The numeric cells read `float(p.get(field, 0))`, hence
`Option.getD 0` for the optional cells. -/
def projectRow (i : ℕ) (p : Project) : String :=
  strConcat
    [ "\n        <tr>\n            <td style=\"text-align: center;\">"
    , toString i
    , "</td>\n            <td>"
    , p.project
    , "</td>\n            <td style=\"text-align: right;\">"
    , "₦" ++ fmtComma0 p.approved_cost
    , "</td>\n            <td style=\"text-align: right;\">"
    , "₦" ++ fmtComma0 p.contract_sum
    , "</td>\n            <td style=\"text-align: center;\">"
    , fmt1 (p.disbursed.getD 0) ++ "%"
    , "</td>\n            <td style=\"text-align: center;\">"
    , fmt1 p.balance ++ "%"
    , "</td>\n            <td style=\"text-align: center;\">"
    , p.quality
    , "</td>\n            <td style=\"text-align: center;\">"
    , p.compliance
    , "</td>\n            <td>"
    , p.other_obs
    , "</td>\n            <td style=\"text-align: center;\">"
    , fmt1 (p.completion.getD 0) ++ "%"
    , "</td>\n            <td style=\"text-align: center;\">"
    , p.docs
    , "</td>\n            <td>"
    , p.recommendation
    , "</td>\n        </tr>\n        " ]

/-- The `for i, p in enumerate(projects, 1)` accumulation of project rows
(src/app.py lines 282-305), generalized over the starting row number. -/
def projectRowsAux (i : ℕ) : List Project → String
  | [] => ""
  | p :: ps => projectRow i p ++ projectRowsAux (i + 1) ps

/-- One `<tr>` of the monitoring-team table (src/app.py lines 308-317). -/
def teamRow (i : ℕ) (m : TeamMember) : String :=
  strConcat
    [ "\n        <tr>\n            <td style=\"text-align: center;\">"
    , toString i
    , "</td>\n            <td>"
    , m.name
    , "</td>\n            <td>"
    , m.designation
    , "</td>\n            <td style=\"text-align: center;\">________________</td>\n        </tr>\n        " ]

/-- The `for i, m in enumerate(monitoring_team, 1)` accumulation of team
rows (src/app.py lines 307-317). -/
def teamRowsAux (i : ℕ) : List TeamMember → String
  | [] => ""
  | m :: ms => teamRow i m ++ teamRowsAux (i + 1) ms

/-- The logo block of the document header (src/app.py lines 319-323). -/
def logoHtml : Option String → String
  | some b =>
    strConcat
      [ "<div style=\"text-align: center;\"><img src=\"data:image/png;base64,"
      , b
      , "\" style=\"height: 80px; width: auto;\"></div>" ]
  | none =>
    "<h1 style=\"text-align: center; color: #1E3A8A;\">TERTIARY EDUCATION TRUST FUND</h1>"

/-- `page_size = "A4 landscape" if orientation == "Landscape" else "A4"`
(src/app.py line 279). -/
def pageSize (orientation : String) : String :=
  if orientation = "Landscape" then "A4 landscape" else "A4"

/-- create_html_report (src/app.py lines 277-482).  The document template
is embedded as the concatenation of its literal pieces and interpolated
values, in source order; `now` stands for the `datetime.now()` timestamp
taken inside the function. -/
def create_html_report (projects : List Project) (institution_info : InstitutionInfo)
    (monitoring_team : List TeamMember) (approval_info : ApprovalInfo)
    (summary : Summary) (orientation : String) (logo_base64 : Option String)
    (now : String) : String :=
  strConcat
    [ "<!DOCTYPE html>\n<html>\n<head>\n    <meta charset=\"UTF-8\">\n    <title>TETFUND Monitoring Report</title>\n    <style>\n        @page \x7b\n            size: "
    , pageSize orientation
    , ";\n            margin: 2cm;\n        \x7d\n        body \x7b\n            font-family: Arial, Helvetica, sans-serif;\n            font-size: 10pt;\n            line-height: 1.4;\n            color: #333;\n        \x7d\n        h1 \x7b\n            color: #1E3A8A;\n            font-size: 24pt;\n            text-align: center;\n            margin: 10px 0;\n        \x7d\n        h2 \x7b\n            color: #1E3A8A;\n            font-size: 16pt;\n            text-align: center;\n            margin: 5px 0;\n        \x7d\n        h3 \x7b\n            color: #1E3A8A;\n            font-size: 14pt;\n            text-align: center;\n            margin: 15px 0 10px 0;\n        \x7d\n        table \x7b\n            width: 100%;\n            border-collapse: collapse;\n            margin: 15px 0;\n            font-size: 9pt;\n        \x7d\n        th \x7b\n            background-color: #1E3A8A;\n            color: white;\n            padding: 8px 4px;\n            font-weight: bold;\n            text-align: center;\n            border: 1px solid #1E3A8A;\n        \x7d\n        td \x7b\n            border: 1px solid #999;\n            padding: 6px 4px;\n            vertical-align: top;\n        \x7d\n        .info-box \x7b\n            background-color: #f5f5f5;\n            padding: 10px;\n            margin: 15px 0;\n            border: 1px solid #ddd;\n            border-radius: 3px;\n        \x7d\n        .signature \x7b\n            margin-top: 30px;\n            padding-top: 10px;\n        \x7d\n        .footer \x7b\n            text-align: center;\n            font-size: 8pt;\n            color: #666;\n            margin-top: 30px;\n            padding-top: 10px;\n            border-top: 1px solid #ccc;\n        \x7d\n        .text-center \x7b text-align: center; \x7d\n        .text-right \x7b text-align: right; \x7d\n    </style>\n</head>\n<body>\n    "
    , logoHtml logo_base64
    , "\n    \n    <h1>TERTIARY EDUCATION TRUST FUND</h1>\n    <h2>Monitoring & Evaluation Department</h2>\n    <h3>Second / Final Tranche Monitoring Report</h3>\n\n    <div class=\"info-box\">\n        <strong>Institution:</strong> "
    , institution_info.name
    , " | \n        <strong>Location:</strong> "
    , institution_info.location
    , " | \n        <strong>Inspection Date:</strong> "
    , institution_info.date
    , " | \n        <strong>Intervention Year:</strong> "
    , institution_info.year
    , "\n    </div>\n\n    <h3>Projects Monitoring Details</h3>\n    <table>\n        <thead>\n            <tr>\n                <th style=\"width: 3%;\">S/N</th>\n                <th style=\"width: 12%;\">Project</th>\n                <th style=\"width: 8%;\">Approved (₦)</th>\n                <th style=\"width: 8%;\">Contract (₦)</th>\n                <th style=\"width: 4%;\">%Disb</th>\n                <th style=\"width: 4%;\">%Bal</th>\n                <th style=\"width: 6%;\">Quality</th>\n                <th style=\"width: 6%;\">Compl</th>\n                <th style=\"width: 15%;\">Observations</th>\n                <th style=\"width: 4%;\">%Comp</th>\n                <th style=\"width: 6%;\">Docs</th>\n                <th style=\"width: 14%;\">Recommendation</th>\n            </tr>\n        </thead>\n        <tbody>\n            "
    , projectRowsAux 1 projects
    , "\n        </tbody>\n    </table>\n\n    <div class=\"info-box\">\n        <strong>Total Projects:</strong> "
    , toString summary.total_projects
    , " | \n        <strong>Completed:</strong> "
    , toString summary.completed
    , " | \n        <strong>In Progress:</strong> "
    , toString summary.in_progress
    , " | \n        <strong>Completion Rate:</strong> "
    , fmt1 summary.completion_rate
    , "%<br>\n        <strong>Total Approved:</strong> ₦"
    , fmtComma2 summary.total_approved
    , " | \n        <strong>Total Contract:</strong> ₦"
    , fmtComma2 summary.total_contract
    , " | \n        <strong>Total Disbursed:</strong> ₦"
    , fmtComma2 summary.total_disbursed
    , " | \n        <strong>Balance:</strong> ₦"
    , fmtComma2 summary.balance
    , "\n    </div>\n\n    <h3>Monitoring Team</h3>\n    <table>\n        <thead>\n            <tr>\n                <th style=\"width: 10%;\">S/N</th>\n                <th style=\"width: 40%;\">Name</th>\n                <th style=\"width: 30%;\">Designation</th>\n                <th style=\"width: 20%;\">Signature</th>\n            </tr>\n        </thead>\n        <tbody>\n            "
    , teamRowsAux 1 monitoring_team
    , "\n        </tbody>\n    </table>\n\n    <h3>DM&E Approval</h3>\n    <div class=\"info-box\">\n        <strong>Status:</strong> "
    , approval_info.status
    , " | \n        <strong>Officer:</strong> "
    , approval_info.officer
    , " | \n        <strong>Date:</strong> "
    , approval_info.date
    , "<br>\n        <strong>Comments:</strong> "
    , approval_info.comments
    , "\n    </div>\n\n    <div class=\"signature\">\n        <strong>DM&E Officer Signature:</strong><br>\n        _________________________________________\n    </div>\n\n    <div class=\"footer\">\n        Generated on "
    , now
    , "\n    </div>\n</body>\n</html>" ]

/-- The observable outcome of one `generate_pdf` call: the returned value
(`output = none` models Python `return None`) together with the error
messages surfaced through `st.error`. -/
structure PdfResult where
  output : Option (List ℕ)
  errors : List String
deriving DecidableEq, Repr

/-- Stand-in for `traceback.format_exc()` (src/app.py line 274): the full
error trace surfaced for the raised error `e`. -/
def tracebackOf (e : String) : String :=
  "Traceback (most recent call last):\n" ++ e

/-- generate_pdf (src/app.py lines 259-275).  The WeasyPrint engine
(`HTML(string=...).write_pdf`) is an external collaborator and is passed
in as `engine`; an `Except.error` value of `engine` models the engine
raising.  The `try/except Exception` of the source catches any raise,
reports `"PDF generation failed: ..."` plus the traceback via `st.error`,
and returns `None`; the function itself is total (it never propagates the
exception to its caller). -/
def generate_pdf (engine : String → Except String (List ℕ))
    (projects : List Project) (institution_info : InstitutionInfo)
    (monitoring_team : List TeamMember) (approval_info : ApprovalInfo)
    (summary : Summary) (orientation : String) (logo_base64 : Option String)
    (now : String) : PdfResult :=
  match engine (create_html_report projects institution_info monitoring_team
      approval_info summary orientation logo_base64 now) with
  | Except.ok bytes => { output := some bytes, errors := [] }
  | Except.error e =>
      { output := none
        errors := ["PDF generation failed: " ++ e, tracebackOf e] }

/-- The mutable session state relevant to the draft snapshot codec
(src/app.py lines 174-195); date values are carried as their textual form. -/
structure AppState where
  projects : List Project
  institution_name : String
  location : String
  intervention_year : String
  inspection_date : String
  bank_charges_added : Bool
  bank_charges_amount : ℚ
  monitoring_team : List TeamMember
  approval_status : String
  dme_officer : String
  approval_comments : String
  pdf_orientation : String
  draft_loaded : Option String
deriving DecidableEq, Repr

/-- init_state defaults (src/app.py lines 174-195); `year` and `today`
stand for the `datetime.now()`-derived values. -/
def initState (year today : String) : AppState :=
  { projects := [DEFAULT_PROJECT]
    institution_name := ""
    location := ""
    intervention_year := year
    inspection_date := today
    bank_charges_added := false
    bank_charges_amount := DEFAULT_BANK_CHARGES_AMOUNT
    monitoring_team := DEFAULT_MONITORING_TEAM
    approval_status := "Pending"
    dme_officer := ""
    approval_comments := ""
    pdf_orientation := "Landscape"
    draft_loaded := none }

/-- A persisted draft snapshot as a record of optional fields: `none`
means the key is absent from the stored JSON object. -/
structure Draft where
  projects : Option (List Project)
  institution_name : Option String
  location : Option String
  intervention_year : Option String
  inspection_date : Option String
  bank_charges_added : Option Bool
  bank_charges_amount : Option ℚ
  monitoring_team : Option (List TeamMember)
  approval_status : Option String
  dme_officer : Option String
  approval_comments : Option String
  pdf_orientation : Option String
  saved_at : Option String
deriving DecidableEq, Repr

/-- Python `draft[key]`: returns the value, or raises `KeyError(key)` when
the key is absent — modelled as `Except.error key`. -/
def req {α : Type} (o : Option α) (key : String) : Except String α :=
  match o with
  | some v => Except.ok v
  | none => Except.error key

/-- load_autosave (src/app.py lines 218-236): required keys are read with
`draft[...]` (raising on absence), while `bank_charges_amount`,
`pdf_orientation` and `saved_at` are read with `draft.get(...)` and
defaulted.  The function contains no exception handler. -/
def loadAutosave (s : AppState) (draft : Draft) : Except String AppState := do
  let projects ← req draft.projects "projects"
  let institution_name ← req draft.institution_name "institution_name"
  let location ← req draft.location "location"
  let intervention_year ← req draft.intervention_year "intervention_year"
  let inspection_date ← req draft.inspection_date "inspection_date"
  let bank_charges_added ← req draft.bank_charges_added "bank_charges_added"
  let bank_charges_amount := draft.bank_charges_amount.getD DEFAULT_BANK_CHARGES_AMOUNT
  let monitoring_team ← req draft.monitoring_team "monitoring_team"
  let approval_status ← req draft.approval_status "approval_status"
  let dme_officer ← req draft.dme_officer "dme_officer"
  let approval_comments ← req draft.approval_comments "approval_comments"
  let pdf_orientation := draft.pdf_orientation.getD "Landscape"
  Except.ok
    { s with
      projects := projects
      institution_name := institution_name
      location := location
      intervention_year := intervention_year
      inspection_date := inspection_date
      bank_charges_added := bank_charges_added
      bank_charges_amount := bank_charges_amount
      monitoring_team := monitoring_team
      approval_status := approval_status
      dme_officer := dme_officer
      approval_comments := approval_comments
      pdf_orientation := pdf_orientation
      draft_loaded := draft.saved_at }

/-- The startup load path (src/app.py lines 237-238): when an autosave
snapshot exists it is decoded by `load_autosave`, with no exception
handler around the call — a decode error propagates. -/
def startup (year today : String) (snap : Option Draft) : Except String AppState :=
  match snap with
  | none => Except.ok (initState year today)
  | some d => loadAutosave (initState year today) d

/-- A structurally invalid snapshot: none of the required keys are
present (e.g. the JSON object on disk is `{}`). -/
def malformedDraft : Draft :=
  { projects := none
    institution_name := none
    location := none
    intervention_year := none
    inspection_date := none
    bank_charges_added := none
    bank_charges_amount := none
    monitoring_team := none
    approval_status := none
    dme_officer := none
    approval_comments := none
    pdf_orientation := none
    saved_at := none }

/-- An older-format snapshot: all required keys present, but the optional
`bank_charges_amount` and `pdf_orientation` keys absent. -/
def olderDraft : Draft :=
  { projects := some []
    institution_name := some "Some Institution"
    location := some "Some City"
    intervention_year := some "2024"
    inspection_date := some "2024-01-01"
    bank_charges_added := some false
    bank_charges_amount := none
    monitoring_team := some []
    approval_status := some "Pending"
    dme_officer := some ""
    approval_comments := some ""
    pdf_orientation := none
    saved_at := some "2024-01-02T00:00:00" }

/-- The state obtained by decoding `olderDraft` over the default state. -/
def olderDraftState : AppState :=
  { projects := []
    institution_name := "Some Institution"
    location := "Some City"
    intervention_year := "2024"
    inspection_date := "2024-01-01"
    bank_charges_added := false
    bank_charges_amount := DEFAULT_BANK_CHARGES_AMOUNT
    monitoring_team := []
    approval_status := "Pending"
    dme_officer := ""
    approval_comments := ""
    pdf_orientation := "Landscape"
    draft_loaded := some "2024-01-02T00:00:00" }

theorem recalcFrom_length (i : ℤ) (ps : List Project) :
    (recalcFrom i ps).length = ps.length := by
  induction ps generalizing i with
  | nil => rfl
  | cons p tl ih => simp [recalcFrom, ih]

theorem recalcFrom_balance (i : ℤ) (ps : List Project) :
    (recalcFrom i ps).map (fun p => p.balance + p.disbursed.getD 0) =
      List.replicate ps.length 100 := by
  induction ps generalizing i with
  | nil => rfl
  | cons p tl ih =>
    simp only [recalcFrom, List.map_cons, List.length_cons, List.replicate_succ, ih]
    simp [recalcOne, coerceNum]

theorem recalcFrom_sno (i : ℤ) (ps : List Project) :
    (recalcFrom i ps).map (fun p => p.s_no) =
      (List.range ps.length).map (fun (k : ℕ) => some (i + (k : ℤ))) := by
  induction ps generalizing i with
  | nil => rfl
  | cons p tl ih =>
    simp only [recalcFrom, List.map_cons, List.length_cons]
    rw [List.range_succ_eq_map, List.map_cons, List.map_map]
    refine congrArg₂ _ (by simp [recalcOne]) ?_
    rw [ih (i + 1)]
    refine List.map_congr_left (fun k _ => ?_)
    simp only [Function.comp_apply]
    congr 1
    push_cast
    ring

theorem recalcFrom_allSome (i : ℤ) (ps : List Project) :
    (recalcFrom i ps).all (fun p => p.disbursed.isSome && p.completion.isSome) = true := by
  induction ps generalizing i with
  | nil => rfl
  | cons p tl ih => simp [recalcFrom, recalcOne, ih]

theorem recalcFrom_idem (i : ℤ) (ps : List Project) :
    recalcFrom i (recalcFrom i ps) = recalcFrom i ps := by
  induction ps generalizing i with
  | nil => rfl
  | cons p tl ih => simp [recalcFrom, ih]; rfl

/-- The fields of a project that `recalc_projects` does not touch. -/
def frameFields (p : Project) :
    String × ℚ × ℚ × String × String × String × String × String :=
  (p.project, p.approved_cost, p.contract_sum, p.quality, p.compliance,
   p.other_obs, p.docs, p.recommendation)

theorem recalcFrom_frame (i : ℤ) (ps : List Project) :
    (recalcFrom i ps).map frameFields = ps.map frameFields := by
  induction ps generalizing i with
  | nil => rfl
  | cons p tl ih => simp [recalcFrom, ih]; rfl

/-- C2: after `recalc_projects`, every project satisfies
`balance + disbursed = 100` exactly (so in particular within floating
tolerance, invalid/missing entries having been coerced to 0), every
`disbursed`/`completion` entry is numeric, and the sequence numbers are
exactly 1..N in list order. -/
theorem C2_recalc_invariants (ps : List Project) :
    (recalc_projects ps).map (fun p => p.balance + p.disbursed.getD 0) =
        List.replicate ps.length 100 ∧
    (recalc_projects ps).all
        (fun p => p.disbursed.isSome && p.completion.isSome) = true ∧
    (recalc_projects ps).map (fun p => p.s_no) =
        (List.range ps.length).map (fun (k : ℕ) => some ((k : ℤ) + 1)) := by
  refine ⟨recalcFrom_balance 1 ps, recalcFrom_allSome 1 ps, ?_⟩
  rw [recalc_projects, recalcFrom_sno]
  refine List.map_congr_left (fun k _ => ?_)
  rw [Int.add_comm]

/-- C5: `recalc_projects` is idempotent. -/
theorem C5_recalc_idempotent (ps : List Project) :
    recalc_projects (recalc_projects ps) = recalc_projects ps :=
  recalcFrom_idem 1 ps

/-- C8: appending a default project (sequence number `len + 1`) with
`addProject` and then removing the last project with `removeLastProject`
returns exactly the original list, contents and sequence numbers included. -/
theorem C8_add_remove_roundtrip (ps : List Project) :
    removeLastProject (addProject ps) = ps := by
  simp [addProject, removeLastProject]

/-- C10: `recalc_projects` preserves the list length and order and leaves
every field other than `disbursed`, `completion`, `balance` and `s_no`
(name, approved cost, contract sum, quality, compliance, observations,
document status, recommendation) unchanged at every position. -/
theorem C10_recalc_frame (ps : List Project) :
    (recalc_projects ps).length = ps.length ∧
    (recalc_projects ps).map frameFields = ps.map frameFields :=
  ⟨recalcFrom_length 1 ps, recalcFrom_frame 1 ps⟩

/-- C1: the Summary Aggregator produces, for every project list (with
numeric entries, as the source presupposes) and every rider state:
`total_projects` = count, `completed` = count of projects with completion
at least 100, `in_progress` = total minus completed, `completion_rate`
guarded against the empty list, the three totals (plus the rider amount
exactly when the rider is enabled), and `balance` = total contract minus
total disbursed. -/
theorem C1_summary_aggregator (ps : List Project) (riderOn : Bool) (amt : ℚ)
    (h : allNumeric ps = true) :
    ∃ s, computeSummary ps riderOn amt = some s ∧
      s.total_projects = ps.length ∧
      s.completed = countCompleted ps ∧
      s.in_progress = (ps.length : ℤ) - (countCompleted ps : ℤ) ∧
      (ps.length = 0 → s.completion_rate = 0) ∧
      (ps.length ≠ 0 →
        s.completion_rate = (countCompleted ps : ℚ) / (ps.length : ℚ) * 100) ∧
      s.total_approved = sumApproved ps + (if riderOn then amt else 0) ∧
      s.total_contract = sumContract ps + (if riderOn then amt else 0) ∧
      s.total_disbursed = sumDisbursed ps + (if riderOn then amt else 0) ∧
      s.balance = s.total_contract - s.total_disbursed := by
  simp only [computeSummary, h, if_true]
  refine ⟨_, rfl, rfl, rfl, rfl, ?_, ?_, ?_, ?_, ?_, rfl⟩
  · intro h0; simp [h0]
  · intro h0; simp [h0]
  · cases riderOn <;> simp
  · cases riderOn <;> simp
  · cases riderOn <;> simp

/-- C1 witness: the conclusion instantiated at the singleton default
project list with the rider disabled. -/
theorem C1_witness :
    allNumeric [DEFAULT_PROJECT] = true ∧
    (∃ s, computeSummary [DEFAULT_PROJECT] false 0 = some s ∧
      s.total_projects = [DEFAULT_PROJECT].length ∧
      s.completed = countCompleted [DEFAULT_PROJECT] ∧
      s.in_progress =
        ([DEFAULT_PROJECT].length : ℤ) - (countCompleted [DEFAULT_PROJECT] : ℤ) ∧
      ([DEFAULT_PROJECT].length = 0 → s.completion_rate = 0) ∧
      ([DEFAULT_PROJECT].length ≠ 0 →
        s.completion_rate =
          (countCompleted [DEFAULT_PROJECT] : ℚ) / ([DEFAULT_PROJECT].length : ℚ) * 100) ∧
      s.total_approved = sumApproved [DEFAULT_PROJECT] + (if false then (0 : ℚ) else 0) ∧
      s.total_contract = sumContract [DEFAULT_PROJECT] + (if false then (0 : ℚ) else 0) ∧
      s.total_disbursed = sumDisbursed [DEFAULT_PROJECT] + (if false then (0 : ℚ) else 0) ∧
      s.balance = s.total_contract - s.total_disbursed) :=
  ⟨by decide, C1_summary_aggregator [DEFAULT_PROJECT] false 0 (by decide)⟩

/-- C3: enabling the rider adds exactly the rider amount to each of
`total_approved`, `total_contract` and `total_disbursed`, and leaves the
summary balance unchanged. -/
theorem C3_rider_adds_equally (ps : List Project) (amt : ℚ)
    (h : allNumeric ps = true) :
    ∃ s0 s1, computeSummary ps false amt = some s0 ∧
      computeSummary ps true amt = some s1 ∧
      s1.total_approved = s0.total_approved + amt ∧
      s1.total_contract = s0.total_contract + amt ∧
      s1.total_disbursed = s0.total_disbursed + amt ∧
      s1.balance = s0.balance := by
  simp only [computeSummary, h, if_true]
  exact ⟨_, _, rfl, rfl, by simp, by simp, by simp, by simp⟩

/-- C3 witness: the conclusion instantiated at the singleton default
project list with the default rider amount. -/
theorem C3_witness :
    allNumeric [DEFAULT_PROJECT] = true ∧
    (∃ s0 s1, computeSummary [DEFAULT_PROJECT] false 215013 = some s0 ∧
      computeSummary [DEFAULT_PROJECT] true 215013 = some s1 ∧
      s1.total_approved = s0.total_approved + 215013 ∧
      s1.total_contract = s0.total_contract + 215013 ∧
      s1.total_disbursed = s0.total_disbursed + 215013 ∧
      s1.balance = s0.balance) :=
  ⟨by decide, C3_rider_adds_equally [DEFAULT_PROJECT] 215013 (by decide)⟩

/-- C4: with the rider enabled, the list handed to the document renderer
is the stored list plus exactly one appended synthetic row carrying the
rider amount as approved cost and contract sum, disbursed 100, balance 0,
completion 100 and non-applicable quality/compliance; the append happens
at the call boundary (the aggregator still counts only the stored
projects), and the totals of the rendered list agree with the Summary the
renderer receives. -/
theorem C4_pdf_rider_row (ps : List Project) (amt : ℚ)
    (h : allNumeric ps = true) :
    pdf_projects ps true amt = ps ++ [bankChargesProject amt] ∧
    (bankChargesProject amt).approved_cost = amt ∧
    (bankChargesProject amt).contract_sum = amt ∧
    (bankChargesProject amt).disbursed = some 100 ∧
    (bankChargesProject amt).balance = 0 ∧
    (bankChargesProject amt).completion = some 100 ∧
    (bankChargesProject amt).quality = "N/A" ∧
    (bankChargesProject amt).compliance = "N/A" ∧
    (pdf_projects ps true amt).length = ps.length + 1 ∧
    ∃ s, computeSummary ps true amt = some s ∧
      s.total_projects = ps.length ∧
      sumApproved (pdf_projects ps true amt) = s.total_approved ∧
      sumContract (pdf_projects ps true amt) = s.total_contract ∧
      sumDisbursed (pdf_projects ps true amt) = s.total_disbursed := by
  refine ⟨rfl, rfl, rfl, rfl, rfl, rfl, rfl, rfl, by simp [pdf_projects], ?_⟩
  simp only [computeSummary, h, if_true]
  refine ⟨_, rfl, rfl, ?_, ?_, ?_⟩
  · simp [sumApproved, pdf_projects, bankChargesProject]
  · simp [sumContract, pdf_projects, bankChargesProject]
  · simp [sumDisbursed, pdf_projects, bankChargesProject]

/-- C4 witness: the conclusion instantiated at the empty stored list and
the default rider amount. -/
theorem C4_witness :
    allNumeric [] = true ∧
    (pdf_projects [] true 215013 = [] ++ [bankChargesProject 215013] ∧
    (bankChargesProject 215013).approved_cost = 215013 ∧
    (bankChargesProject 215013).contract_sum = 215013 ∧
    (bankChargesProject 215013).disbursed = some 100 ∧
    (bankChargesProject 215013).balance = 0 ∧
    (bankChargesProject 215013).completion = some 100 ∧
    (bankChargesProject 215013).quality = "N/A" ∧
    (bankChargesProject 215013).compliance = "N/A" ∧
    (pdf_projects [] true 215013).length = List.length ([] : List Project) + 1 ∧
    ∃ s, computeSummary [] true 215013 = some s ∧
      s.total_projects = List.length ([] : List Project) ∧
      sumApproved (pdf_projects [] true 215013) = s.total_approved ∧
      sumContract (pdf_projects [] true 215013) = s.total_contract ∧
      sumDisbursed (pdf_projects [] true 215013) = s.total_disbursed) :=
  ⟨by decide, C4_pdf_rider_row [] 215013 (by decide)⟩

/-- C6 counterexample: decoding a structurally invalid snapshot (here one
with no required keys at all) does not give the caller a handled failure
with a fallback to defaults — the decode error propagates out of
`load_autosave` and out of its module-level call site unhandled. -/
theorem C6_counterexample :
    loadAutosave (initState "2026" "2026-10-12") malformedDraft =
      Except.error "projects" ∧
    startup "2026" "2026-10-12" (some malformedDraft) =
      Except.error "projects" :=
  ⟨rfl, rfl⟩

/-- C6 (amended): decoding a snapshot whose required keys are present but
whose rider-amount key is missing yields the fixed default constant, and a
missing orientation key yields the landscape value; however, decoding a
structurally invalid snapshot raises past the decode boundary — the
unhandled error propagates through the startup call site instead of
falling back to the default state. -/
theorem C6_decode_defaults (s0 : AppState) (pr : List Project)
    (nm lo yr dt : String) (ba : Bool) (mt : List TeamMember)
    (st off cm : String) (sa : Option String) :
    loadAutosave s0
      { projects := some pr
        institution_name := some nm
        location := some lo
        intervention_year := some yr
        inspection_date := some dt
        bank_charges_added := some ba
        bank_charges_amount := none
        monitoring_team := some mt
        approval_status := some st
        dme_officer := some off
        approval_comments := some cm
        pdf_orientation := none
        saved_at := sa } =
    Except.ok
      { s0 with
        projects := pr
        institution_name := nm
        location := lo
        intervention_year := yr
        inspection_date := dt
        bank_charges_added := ba
        bank_charges_amount := DEFAULT_BANK_CHARGES_AMOUNT
        monitoring_team := mt
        approval_status := st
        dme_officer := off
        approval_comments := cm
        pdf_orientation := "Landscape"
        draft_loaded := sa } ∧
    loadAutosave s0 malformedDraft = Except.error "projects" ∧
    startup yr dt (some malformedDraft) = Except.error "projects" :=
  ⟨rfl, rfl, rfl⟩

/-- C7: whenever the rendering engine raises on the generated document
source, `generate_pdf` contains the failure: it returns no output
(`output = none`, the Python `return None`), surfaces a diagnostic message
carrying the error text together with the full error trace, and — being a
total function of its inputs — never propagates the exception to its
caller. -/
theorem C7_pdf_failure_contained (engine : String → Except String (List ℕ))
    (projects : List Project) (institution_info : InstitutionInfo)
    (monitoring_team : List TeamMember) (approval_info : ApprovalInfo)
    (summary : Summary) (orientation : String) (logo_base64 : Option String)
    (now : String) (e : String)
    (h : engine (create_html_report projects institution_info monitoring_team
        approval_info summary orientation logo_base64 now) = Except.error e) :
    generate_pdf engine projects institution_info monitoring_team approval_info
        summary orientation logo_base64 now =
      { output := none
        errors := ["PDF generation failed: " ++ e, tracebackOf e] } := by
  simp [generate_pdf, h]

/-- An engine that raises on every input (e.g. WeasyPrint absent or the
input malformed). -/
def engineBoom : String → Except String (List ℕ) := fun _ => Except.error "boom"

/-- Empty institution metadata, for witnesses. -/
def instit0 : InstitutionInfo :=
  { name := "", location := "", year := "", date := "" }

/-- Minimal approval record, for witnesses. -/
def appr0 : ApprovalInfo :=
  { status := "Pending", officer := "", date := "01-Jan-2024"
    comments := "No comments provided" }

/-- Zero summary record, for witnesses. -/
def summary0 : Summary :=
  { total_projects := 0, completed := 0, in_progress := 0, completion_rate := 0
    total_approved := 0, total_contract := 0, total_disbursed := 0, balance := 0 }

/-- C7 witness: the conclusion instantiated at an always-raising engine. -/
theorem C7_witness :
    engineBoom (create_html_report [] instit0 [] appr0 summary0 "Landscape"
        none "now") = Except.error "boom" ∧
    generate_pdf engineBoom [] instit0 [] appr0 summary0 "Landscape" none "now" =
      { output := none
        errors := ["PDF generation failed: " ++ "boom", tracebackOf "boom"] } :=
  ⟨rfl, C7_pdf_failure_contained engineBoom [] instit0 [] appr0 summary0
    "Landscape" none "now" "boom" rfl⟩

theorem occursIn_of_occursIn_mem (x y : String) (l : List String)
    (hy : y ∈ l) (h : occursIn x y) : occursIn x (strConcat l) :=
  occursIn_trans _ _ _ h (occursIn_strConcat_mem _ _ hy)

theorem projectRowsAux_occursIn (k : ℕ) (ps : List Project) (j : ℕ)
    (hj : j < ps.length) :
    occursIn (projectRow (k + j) (ps.get ⟨j, hj⟩)) (projectRowsAux k ps) := by
  induction ps generalizing k j with
  | nil => simp at hj
  | cons p tl ih =>
    cases j with
    | zero =>
      simpa using occursIn_append_left _ _ _ (occursIn_refl (projectRow k p))
    | succ j' =>
      rw [show k + (j' + 1) = (k + 1) + j' by omega]
      exact occursIn_append_right _ _ _
        (ih (k + 1) j' (Nat.lt_of_succ_lt_succ hj))

/-- C9: every input field value of a project appears verbatim in its
rendered table row (name, quality, compliance, observations, document
status, recommendation); approved cost and contract sum appear as the
currency glyph `₦` followed by the thousands-separated zero-decimal
rendering; disbursed, balance and completion appear as one-decimal
percentages; the value `1234567.0` formats to `1,234,567`; and each
project's row occurs in the full rendered document, numbered by list
position. -/
theorem C9_render_verbatim_and_formats (p : Project) (i : ℕ) :
    occursIn p.project (projectRow i p) ∧
    occursIn p.quality (projectRow i p) ∧
    occursIn p.compliance (projectRow i p) ∧
    occursIn p.other_obs (projectRow i p) ∧
    occursIn p.docs (projectRow i p) ∧
    occursIn p.recommendation (projectRow i p) ∧
    occursIn ("₦" ++ fmtComma0 p.approved_cost) (projectRow i p) ∧
    occursIn ("₦" ++ fmtComma0 p.contract_sum) (projectRow i p) ∧
    occursIn (fmt1 (p.disbursed.getD 0) ++ "%") (projectRow i p) ∧
    occursIn (fmt1 p.balance ++ "%") (projectRow i p) ∧
    occursIn (fmt1 (p.completion.getD 0) ++ "%") (projectRow i p) ∧
    fmtComma0 1234567 = "1,234,567" ∧
    (∀ (ps : List Project) (institution_info : InstitutionInfo)
        (monitoring_team : List TeamMember) (approval_info : ApprovalInfo)
        (summary : Summary) (orientation : String) (logo_base64 : Option String)
        (now : String) (j : ℕ) (hj : j < ps.length),
      occursIn (projectRow (1 + j) (ps.get ⟨j, hj⟩))
        (create_html_report ps institution_info monitoring_team approval_info
          summary orientation logo_base64 now)) := by
  refine ⟨?_, ?_, ?_, ?_, ?_, ?_, ?_, ?_, ?_, ?_, ?_, rfl, ?_⟩
  · exact occursIn_strConcat_mem _ _ (by simp [projectRow])
  · exact occursIn_strConcat_mem _ _ (by simp [projectRow])
  · exact occursIn_strConcat_mem _ _ (by simp [projectRow])
  · exact occursIn_strConcat_mem _ _ (by simp [projectRow])
  · exact occursIn_strConcat_mem _ _ (by simp [projectRow])
  · exact occursIn_strConcat_mem _ _ (by simp [projectRow])
  · exact occursIn_strConcat_mem _ _ (by simp [projectRow])
  · exact occursIn_strConcat_mem _ _ (by simp [projectRow])
  · exact occursIn_strConcat_mem _ _ (by simp [projectRow])
  · exact occursIn_strConcat_mem _ _ (by simp [projectRow])
  · exact occursIn_strConcat_mem _ _ (by simp [projectRow])
  · intro ps institution_info monitoring_team approval_info summary
      orientation logo_base64 now j hj
    exact occursIn_of_occursIn_mem _ _ _ (by simp [create_html_report])
      (projectRowsAux_occursIn 1 ps j hj)

/-- C9 witness: the default project's row, with all its formatted cells,
occurs in a concrete rendered document. -/
theorem C9_witness :
    occursIn (projectRow (1 + 0) ([DEFAULT_PROJECT].get ⟨0, by decide⟩))
      (create_html_report [DEFAULT_PROJECT] instit0 DEFAULT_MONITORING_TEAM
        appr0 summary0 "Landscape" none "now") :=
  (C9_render_verbatim_and_formats DEFAULT_PROJECT
    1).2.2.2.2.2.2.2.2.2.2.2.2 [DEFAULT_PROJECT] instit0
    DEFAULT_MONITORING_TEAM appr0 summary0 "Landscape" none "now" 0 (by decide)
